import Mathlib

/-!
Shallow embedding of the `time_zero` repository's notebook
`notebooks/2d_simulation.ipynb`.

The notebook defines a pure function `centroid_from_motor(motor, size=640.,
scale=1.)` that reads the motor's position, multiplies it by `scale`, and
clamps the result to `0.` whenever it falls outside the closed interval
`[0, size]`; and a class `Imager(Device)` with two `SynSignal` components
(`x_centroid` bound to motor `x`, `y_centroid` bound to motor `y`), a
`hints` property, and a `trigger` override.

Python floats are modelled as rationals; the mutable motor object is
modelled by explicit state passing: `centroid_from_motor` receives the
motor state and returns the (unchanged, since the Python body performs no
writes) motor state together with the computed reading.
-/

namespace TimeZero

/-- State of an `ophyd.sim.SynAxis` simulated motor: its name, its current
position, and its configured velocity (further configuration standing in
for "all other motor state"). -/
structure SynAxis where
  name : String
  position : ℚ
  velocity : ℚ
  deriving DecidableEq, Repr

/-- Default value of the `size` argument of `centroid_from_motor`
(`size=640.`). -/
def default_size : ℚ := 640

/-- Default value of the `scale` argument of `centroid_from_motor`
(`scale=1.`). -/
def default_scale : ℚ := 1

/-- `centroid_from_motor(motor, size, scale)` from the notebook: read the
motor position, compute `centroid = position * scale`, return `0.` if the
centroid is off the screen (`centroid < 0. or centroid > size`), otherwise
return the centroid.  The Python function only reads `motor.position`; the
returned first component is the motor state after the call. -/
def centroid_from_motor (motor : SynAxis) (size : ℚ) (scale : ℚ) :
    SynAxis × ℚ :=
  let position := motor.position
  let centroid := position * scale
  if centroid < 0 ∨ centroid > size then
    (motor, 0)
  else
    (motor, centroid)

/-- Unfolding lemma: the reading returned by `centroid_from_motor` is the
clamped product. -/
theorem centroid_from_motor_snd (m : SynAxis) (s c : ℚ) :
    (centroid_from_motor m s c).2 =
      if m.position * c < 0 ∨ m.position * c > s then 0
      else m.position * c := by
  simp only [centroid_from_motor]
  split
  · rfl
  · rfl

/-- Unfolding lemma: the motor state returned by `centroid_from_motor` is
the input motor state. -/
theorem centroid_from_motor_fst (m : SynAxis) (s c : ℚ) :
    (centroid_from_motor m s c).1 = m := by
  simp only [centroid_from_motor]
  split
  · rfl
  · rfl

/-- State of an `ophyd.sim.SynSignal`: its name and its last reading. -/
structure SynSignal where
  name : String
  value : ℚ
  deriving DecidableEq, Repr

/-- `SynSignal.trigger`: evaluate the signal's plugged-in function and
store the result as the signal's reading.  The function bound at component
declaration time is passed in as its current result. -/
def SynSignal.trigger (func_result : ℚ) (s : SynSignal) : SynSignal :=
  { s with value := func_result }

/-- Status object returned by the base `ophyd.Device.trigger`. -/
inductive DeviceStatus where
  | done
  deriving DecidableEq, Repr

/-- Observable events of a trigger call, used to record what a `trigger`
override does and in which order. -/
inductive TraceEv where
  | sigTriggered (name : String)
  | baseTriggered
  deriving DecidableEq, Repr

/-- The base `ophyd.Device.trigger`: returns a status object and touches
none of the `Imager`-declared signals. -/
def Device.trigger_base : DeviceStatus × List TraceEv :=
  (DeviceStatus.done, [TraceEv.baseTriggered])

/-- The signal components of an `Imager` instance: the class body declares
`x_centroid` and `y_centroid`, each a `SynSignal` `Cpt`. -/
structure ImagerSignals where
  x_centroid : SynSignal
  y_centroid : SynSignal
  deriving DecidableEq, Repr

/-- The names of the component attributes the `Imager` class body
declares, in declaration order. -/
def Imager.component_names : List String :=
  ["x_centroid", "y_centroid"]

/-- The world the notebook builds: the two global motors `x` and `y`
created by `SynAxis(name='x')` / `SynAxis(name='y')`, and the signals of
the `imager` device.  The component declarations bind `x_centroid`'s
function to motor `x` and `y_centroid`'s function to motor `y` via
closures over the global motor objects. -/
structure World where
  x : SynAxis
  y : SynAxis
  imager : ImagerSignals
  deriving DecidableEq, Repr

/-- The function plugged into the `x_centroid` component:
`centroid_from_motor` applied to the global motor `x` with the default
`size` and `scale`. -/
def Imager.x_centroid_func (w : World) : ℚ :=
  (centroid_from_motor w.x default_size default_scale).2

/-- The function plugged into the `y_centroid` component:
`centroid_from_motor` applied to the global motor `y` with the default
`size` and `scale`. -/
def Imager.y_centroid_func (w : World) : ℚ :=
  (centroid_from_motor w.y default_size default_scale).2

/-- `Imager.trigger` from the notebook: trigger the `x_centroid` signal,
then trigger the `y_centroid` signal, then return the result of the base
`Device.trigger`.  Returns the updated world, the status returned to the
caller, and the trace of events in order. -/
def Imager.trigger (w : World) : World × DeviceStatus × List TraceEv :=
  let x_sig := SynSignal.trigger (Imager.x_centroid_func w) w.imager.x_centroid
  let y_sig := SynSignal.trigger (Imager.y_centroid_func w) w.imager.y_centroid
  let base := Device.trigger_base
  ({ w with imager := ⟨x_sig, y_sig⟩ },
   base.1,
   TraceEv.sigTriggered w.imager.x_centroid.name ::
     TraceEv.sigTriggered w.imager.y_centroid.name :: base.2)

/-- `Imager.hints` from the notebook: a dictionary with the single key
`'fields'` mapped to the list of the two centroid signal names.  The
dictionary is modelled as an association list. -/
def Imager.hints (sigs : ImagerSignals) : List (String × List String) :=
  [("fields", [sigs.x_centroid.name, sigs.y_centroid.name])]

end TimeZero

namespace TimeZero

/-- C1: for every motor position, screen size and scale, the reading is
`position * scale` when that product lies in `[0, size]`, and `0` when it
lies outside. -/
theorem centroid_from_motor_clamp (m : SynAxis) (s c : ℚ) :
    (0 ≤ m.position * c ∧ m.position * c ≤ s →
      (centroid_from_motor m s c).2 = m.position * c) ∧
    (m.position * c < 0 ∨ s < m.position * c →
      (centroid_from_motor m s c).2 = 0) := by
  unfold centroid_from_motor
  constructor
  · rintro ⟨h0, hs⟩
    rw [if_neg]
    push_neg
    exact ⟨h0, hs⟩
  · intro h
    rw [if_pos h]

/-- Witness for C1 at a concrete input: position `3`, size `640`,
scale `2`. -/
theorem centroid_from_motor_clamp_witness :
    (centroid_from_motor ⟨"x", 3, 1⟩ 640 2).2 = (3 : ℚ) * 2 :=
  (centroid_from_motor_clamp ⟨"x", 3, 1⟩ 640 2).1 (by norm_num)

/-- C2: the reading is a deterministic function of motor position: two
motors reporting the same position give equal readings for the same `size`
and `scale` arguments. -/
theorem centroid_from_motor_deterministic (m₁ m₂ : SynAxis) (s c : ℚ)
    (h : m₁.position = m₂.position) :
    (centroid_from_motor m₁ s c).2 = (centroid_from_motor m₂ s c).2 := by
  simp only [centroid_from_motor, apply_ite Prod.snd, h]

/-- Witness for C2: two motors with different names and velocities but the
same position `5` give the same reading. -/
theorem centroid_from_motor_deterministic_witness :
    (centroid_from_motor ⟨"x", 5, 1⟩ 640 1).2 =
      (centroid_from_motor ⟨"y", 5, 7⟩ 640 1).2 :=
  centroid_from_motor_deterministic ⟨"x", 5, 1⟩ ⟨"y", 5, 7⟩ 640 1 rfl

/-- C3 counterexample: the claim "when `position * scale` equals exactly
`size`, the function returns `size` rather than `0`" fails when `size` is
negative.  At position `-1`, scale `1`, size `-1` the product equals the
size, yet the function returns `0`, not `-1`: the `centroid < 0.` test
fires first. -/
theorem centroid_from_motor_endpoint_counterexample :
    ((-1 : ℚ) * 1 = -1) ∧
      (centroid_from_motor ⟨"x", -1, 1⟩ (-1) 1).2 = 0 ∧
      (0 : ℚ) ≠ -1 := by
  refine ⟨by norm_num, ?_, by norm_num⟩
  simp [centroid_from_motor]

/-- C3 (amended): when `position * scale = 0` the function returns `0`
(the computed centroid), and when `position * scale = size` with a
nonnegative `size` it returns `size` rather than `0`. -/
theorem centroid_from_motor_endpoints (m : SynAxis) (s c : ℚ) :
    (m.position * c = 0 → (centroid_from_motor m s c).2 = 0) ∧
    (0 ≤ s → m.position * c = s → (centroid_from_motor m s c).2 = s) := by
  simp only [centroid_from_motor_snd]
  constructor
  · intro h0
    rw [h0]
    split
    · rfl
    · rfl
  · intro hs hc
    rw [hc, if_neg]
    push_neg
    exact ⟨hs, le_refl s⟩

/-- Witness for C3 (amended) at both endpoints: position `0` gives `0`,
and position `640` with the full screen size gives `640`. -/
theorem centroid_from_motor_endpoints_witness :
    (centroid_from_motor ⟨"x", 0, 1⟩ 640 1).2 = 0 ∧
      (centroid_from_motor ⟨"x", 640, 1⟩ 640 1).2 = 640 :=
  ⟨(centroid_from_motor_endpoints ⟨"x", 0, 1⟩ 640 1).1 (by norm_num),
   (centroid_from_motor_endpoints ⟨"x", 640, 1⟩ 640 1).2 (by norm_num)
     (by norm_num)⟩

/-- C5: scale acts through the position: reading a motor at position `p`
with scale `c` equals reading a motor at position `p * c` with scale `1`
(same size, same other motor state). -/
theorem centroid_from_motor_scale_hom (m : SynAxis) (s c : ℚ) :
    (centroid_from_motor m s c).2 =
      (centroid_from_motor { m with position := m.position * c } s 1).2 := by
  simp [centroid_from_motor_snd]

/-- C6: with the default arguments (`size=640.`, `scale=1.`) the function
is the identity on on-screen positions and `0` elsewhere. -/
theorem centroid_from_motor_default_identity (m : SynAxis) :
    (0 ≤ m.position ∧ m.position ≤ 640 →
      (centroid_from_motor m default_size default_scale).2 = m.position) ∧
    (¬(0 ≤ m.position ∧ m.position ≤ 640) →
      (centroid_from_motor m default_size default_scale).2 = 0) := by
  simp only [centroid_from_motor_snd, default_size, default_scale]
  constructor
  · rintro ⟨h0, hs⟩
    rw [mul_one, if_neg]
    push_neg
    exact ⟨h0, hs⟩
  · intro h
    push_neg at h
    rw [mul_one, if_pos]
    rcases lt_or_le m.position 0 with hneg | hpos
    · exact Or.inl hneg
    · exact Or.inr (h hpos)

/-- Witness for C6: position `420` is returned unchanged under the default
arguments, and position `-3` is clamped to `0`. -/
theorem centroid_from_motor_default_identity_witness :
    (centroid_from_motor ⟨"x", 420, 1⟩ default_size default_scale).2 = 420 ∧
      (centroid_from_motor ⟨"x", -3, 1⟩ default_size default_scale).2 = 0 :=
  ⟨(centroid_from_motor_default_identity ⟨"x", 420, 1⟩).1 (by norm_num),
   (centroid_from_motor_default_identity ⟨"x", -3, 1⟩).2 (by norm_num)⟩

/-- C7: the function is pure with respect to the motor: it returns the
motor state unchanged, and its reading depends on nothing of the motor but
its position. -/
theorem centroid_from_motor_pure (m : SynAxis) (s c : ℚ) :
    (centroid_from_motor m s c).1 = m ∧
    (∀ m' : SynAxis, m'.position = m.position →
      (centroid_from_motor m' s c).2 = (centroid_from_motor m s c).2) := by
  constructor
  · exact centroid_from_motor_fst m s c
  · intro m' h
    simp only [centroid_from_motor_snd, h]

/-- Witness for C7: a motor with a different name and velocity but the
same position produces the same reading, and the motor comes back
unchanged. -/
theorem centroid_from_motor_pure_witness :
    (centroid_from_motor ⟨"x", 9, 2⟩ 640 1).1 = ⟨"x", 9, 2⟩ ∧
      (centroid_from_motor ⟨"other", 9, 5⟩ 640 1).2 =
        (centroid_from_motor ⟨"x", 9, 2⟩ 640 1).2 :=
  ⟨(centroid_from_motor_pure ⟨"x", 9, 2⟩ 640 1).1,
   (centroid_from_motor_pure ⟨"x", 9, 2⟩ 640 1).2 ⟨"other", 9, 5⟩ rfl⟩

/-- C8: for a nonnegative screen size the reading always lies in
`[0, size]`: never negative, never beyond the screen. -/
theorem centroid_from_motor_range (m : SynAxis) (s c : ℚ) (hs : 0 ≤ s) :
    0 ≤ (centroid_from_motor m s c).2 ∧ (centroid_from_motor m s c).2 ≤ s := by
  simp only [centroid_from_motor_snd]
  split
  · exact ⟨le_refl 0, hs⟩
  · next h =>
    push_neg at h
    exact h

/-- Witness for C8: at position `1000`, size `640`, scale `1` the reading
lies in `[0, 640]`. -/
theorem centroid_from_motor_range_witness :
    0 ≤ (centroid_from_motor ⟨"x", 1000, 1⟩ 640 1).2 ∧
      (centroid_from_motor ⟨"x", 1000, 1⟩ 640 1).2 ≤ 640 :=
  centroid_from_motor_range ⟨"x", 1000, 1⟩ 640 1 (by norm_num)

/-- C4: the `Imager` class declares exactly the two signal components
`x_centroid` (bound to motor `x`) and `y_centroid` (bound to motor `y`),
and its `trigger` override triggers the `x_centroid` signal, triggers the
`y_centroid` signal, and then returns the result of the base
`Device.trigger`, in that order. -/
theorem Imager_components_and_trigger (w : World) :
    Imager.component_names.length = 2 ∧
    Imager.component_names = ["x_centroid", "y_centroid"] ∧
    Imager.x_centroid_func w =
      (centroid_from_motor w.x default_size default_scale).2 ∧
    Imager.y_centroid_func w =
      (centroid_from_motor w.y default_size default_scale).2 ∧
    (Imager.trigger w).1.imager.x_centroid =
      SynSignal.trigger (Imager.x_centroid_func w) w.imager.x_centroid ∧
    (Imager.trigger w).1.imager.y_centroid =
      SynSignal.trigger (Imager.y_centroid_func w) w.imager.y_centroid ∧
    (Imager.trigger w).2.1 = Device.trigger_base.1 ∧
    (Imager.trigger w).2.2 =
      TraceEv.sigTriggered w.imager.x_centroid.name ::
        TraceEv.sigTriggered w.imager.y_centroid.name ::
        Device.trigger_base.2 :=
  ⟨rfl, rfl, rfl, rfl, rfl, rfl, rfl, rfl⟩

/-- C9: the two axes do not interfere: after a trigger, the `x_centroid`
reading depends only on the position of motor `x` (the position of `y`,
all other motor state, and the previous signal values are irrelevant), and
symmetrically for `y_centroid` and motor `y`. -/
theorem Imager_axis_noninterference (w w' : World) :
    (w.x.position = w'.x.position →
      (Imager.trigger w).1.imager.x_centroid.value =
        (Imager.trigger w').1.imager.x_centroid.value) ∧
    (w.y.position = w'.y.position →
      (Imager.trigger w).1.imager.y_centroid.value =
        (Imager.trigger w').1.imager.y_centroid.value) := by
  constructor
  · intro h
    show Imager.x_centroid_func w = Imager.x_centroid_func w'
    simp only [Imager.x_centroid_func, centroid_from_motor_snd, h]
  · intro h
    show Imager.y_centroid_func w = Imager.y_centroid_func w'
    simp only [Imager.y_centroid_func, centroid_from_motor_snd, h]

/-- Witness for C9: moving motor `y` (and even renaming it) between two
triggers leaves the `x_centroid` reading unchanged, and vice versa with
the roles swapped at a second pair of worlds. -/
theorem Imager_axis_noninterference_witness :
    ((Imager.trigger
        ⟨⟨"x", 100, 1⟩, ⟨"y", 200, 1⟩, ⟨⟨"xc", 0⟩, ⟨"yc", 0⟩⟩⟩).1.imager.x_centroid.value =
      (Imager.trigger
        ⟨⟨"x", 100, 1⟩, ⟨"y2", 555, 3⟩, ⟨⟨"xc", 7⟩, ⟨"yc", 8⟩⟩⟩).1.imager.x_centroid.value) ∧
    ((Imager.trigger
        ⟨⟨"x", 100, 1⟩, ⟨"y", 200, 1⟩, ⟨⟨"xc", 0⟩, ⟨"yc", 0⟩⟩⟩).1.imager.y_centroid.value =
      (Imager.trigger
        ⟨⟨"x2", 9, 4⟩, ⟨"y", 200, 1⟩, ⟨⟨"xc", 7⟩, ⟨"yc", 8⟩⟩⟩).1.imager.y_centroid.value) :=
  ⟨(Imager_axis_noninterference
      ⟨⟨"x", 100, 1⟩, ⟨"y", 200, 1⟩, ⟨⟨"xc", 0⟩, ⟨"yc", 0⟩⟩⟩
      ⟨⟨"x", 100, 1⟩, ⟨"y2", 555, 3⟩, ⟨⟨"xc", 7⟩, ⟨"yc", 8⟩⟩⟩).1 rfl,
   (Imager_axis_noninterference
      ⟨⟨"x", 100, 1⟩, ⟨"y", 200, 1⟩, ⟨⟨"xc", 0⟩, ⟨"yc", 0⟩⟩⟩
      ⟨⟨"x2", 9, 4⟩, ⟨"y", 200, 1⟩, ⟨⟨"xc", 7⟩, ⟨"yc", 8⟩⟩⟩).2 rfl⟩

/-- C10: `Imager.hints` is always a dictionary with the single key
`'fields'` whose value is exactly the two-element list of the
`x_centroid` signal's name followed by the `y_centroid` signal's name. -/
theorem Imager_hints_fields (sigs : ImagerSignals) :
    (Imager.hints sigs).length = 1 ∧
    (Imager.hints sigs).map Prod.fst = ["fields"] ∧
    (Imager.hints sigs).lookup "fields" =
      some [sigs.x_centroid.name, sigs.y_centroid.name] := by
  refine ⟨rfl, rfl, ?_⟩
  simp [Imager.hints]

end TimeZero
